import Mathlib

/-!
# Arcade vehicle controller: a shallow embedding

A Lean model of the fixed-step vehicle controller and the per-frame visual
reconciler of the arcade car component (the `Car` component's
`useBeforePhysicsStep` and `useFrame` callbacks).

Scalar quantities are modelled as exact rationals (`ℚ`); the source computes
with IEEE doubles, but every claim under study concerns the algorithm, whose
coefficients (0.03, 0.5, 0.02, 0.01, 1.5, 5, -4) are all exactly
representable.

The steering orientation is a rotation about the world-up axis `(0,1,0)` by
`steeringAngle`; the drive impulse is the vector `(0,0,-speed)*5` rotated by
that quaternion.  We represent such a rotated vector symbolically by the pair
(rotation angle, pre-rotation vector): a rotation about a fixed axis is a
linear isometry, so two such pairs with the same angle denote the same
concrete vector iff their raw vectors are equal, and the rotated vector's
Euclidean norm equals the raw vector's norm.
-/

/-- `THREE.MathUtils.lerp`: linear interpolation `(1 - t) * x + t * y`. -/
def lerp (x y t : ℚ) : ℚ := (1 - t) * x + t * y

/-- `maxForwardSpeed` constant from the source. -/
def maxForwardSpeed : ℚ := 5

/-- `maxReverseSpeed` constant from the source. -/
def maxReverseSpeed : ℚ := -4

/-- The five keyboard flags destructured from `getKeyboardControls()` at the
top of the physics callback. -/
structure Controls where
  forward : Bool
  back : Bool
  left : Bool
  right : Bool
  drift : Bool
  deriving DecidableEq, Repr

/-- Per-step snapshot of what the external physics engine answers during one
fixed step: whether the downward ray cast from the body hits ground within
distance 1 (`groundRayResult !== null`), and the body's current linear
velocity `x`/`z` components (read by the damping impulse). -/
structure PhysicsEnv where
  groundHit : Bool
  linvelX : ℚ
  linvelZ : ℚ
  deriving DecidableEq, Repr

/-- The mutable refs owned by the fixed-step callback: `steeringAngle`,
`driftSteeringAngle`, `driftingLeft`, `driftingRight`, `speed`, `grounded`,
plus `steeringAngleQuat` represented by its rotation angle about world-up
(`quatAngle`; it is rebuilt each step via `setFromAxisAngle(up, steeringAngle)`,
and is the identity, angle 0, before the first step). -/
structure VehicleState where
  steeringAngle : ℚ
  driftSteeringAngle : ℚ
  driftingLeft : Bool
  driftingRight : Bool
  speed : ℚ
  grounded : Bool
  quatAngle : ℚ
  deriving DecidableEq, Repr

/-- A vector obtained by rotating `raw` about the world-up axis `(0,1,0)` by
`angle` radians (symbolic representation of `impulse.applyQuaternion(q)`
where `q = setFromAxisAngle(up, angle)`). -/
structure RotatedVec where
  angle : ℚ
  raw : ℚ × ℚ × ℚ
  deriving DecidableEq, Repr

/-- Everything one invocation of the `useBeforePhysicsStep` callback does:
the new ref state, the value written to `vectors.steeringInput.current`, the
drive impulse passed to `applyImpulse` (`none` when the
`impulse.length() > 0` guard skips the call), and the damping impulse. -/
structure StepResult where
  state : VehicleState
  steeringInput : ℚ
  driveImpulse : Option RotatedVec
  dampingImpulse : ℚ × ℚ × ℚ
  deriving DecidableEq, Repr

/-- One invocation of the `useBeforePhysicsStep` callback, translated
statement by statement from the source (body of `Car`).  Source order:

1. `impulse = (0,0,-speed.current) * 5` — built from the speed entering the
   step (the speed ref is only reassigned further down);
2. ground ray cast, `grounded.current = (result !== null)`;
3. `steeringInput = Number(left) - Number(right)`, negated if `impulse.z > 0`;
4. `steeringAngle += steeringInput * 0.02`;
5. drifting controls: clear both flags if `!drift`; then if
   `drift && grounded && 1 < speed` set `driftingLeft` on `left` and
   `driftingRight` on `right` (the other flag keeps its value), then clear
   both if both are set or neither key is held; otherwise clear both;
6. `driftSteeringTarget = 1 / -1 / 0`; `driftSteeringAngle` lerps toward it
   with factor 0.5; `steeringAngle += driftSteeringAngle * 0.01`;
7. quaternion rebuilt from `steeringAngle` by `setFromAxisAngle`, impulse
   rotated by it;
8. `speedTarget = 5 / -4 / 0`; `speed` lerps toward it with factor 0.03;
9. `applyImpulse(impulse)` only when `impulse.length() > 0` (the rotation is
   an isometry, so the length of the rotated impulse is `|(-speed) * 5|`);
10. damping impulse `(-linvel.x * 1.5, 0, -linvel.z * 1.5)`, applied
    unconditionally. -/
def physicsStep (c : Controls) (env : PhysicsEnv) (s : VehicleState) : StepResult :=
  let impulseZ : ℚ := -s.speed * 5
  let grounded : Bool := env.groundHit
  let steeringInput0 : ℚ := (if c.left then 1 else 0) - (if c.right then 1 else 0)
  let steeringInput : ℚ := if 0 < impulseZ then -steeringInput0 else steeringInput0
  let angle1 : ℚ := s.steeringAngle + steeringInput * 0.02
  let dl0 : Bool := if !c.drift then false else s.driftingLeft
  let dr0 : Bool := if !c.drift then false else s.driftingRight
  let dldr : Bool × Bool :=
    if c.drift ∧ grounded ∧ (1 : ℚ) < s.speed then
      let dl1 : Bool := if c.left then true else dl0
      let dr1 : Bool := if c.right then true else dr0
      if (dl1 ∧ dr1) ∨ (¬c.left ∧ ¬c.right) then (false, false) else (dl1, dr1)
    else (false, false)
  let driftSteeringTarget : ℚ := if dldr.1 then 1 else if dldr.2 then -1 else 0
  let dsa : ℚ := lerp s.driftSteeringAngle driftSteeringTarget 0.5
  let angle2 : ℚ := angle1 + dsa * 0.01
  let speedTarget : ℚ :=
    if c.forward then maxForwardSpeed else if c.back then maxReverseSpeed else 0
  let speed' : ℚ := lerp s.speed speedTarget 0.03
  let driveImpulse : Option RotatedVec :=
    if 0 < |impulseZ| then some ⟨angle2, (0, 0, impulseZ)⟩ else none
  { state :=
      { steeringAngle := angle2
        driftSteeringAngle := dsa
        driftingLeft := dldr.1
        driftingRight := dldr.2
        speed := speed'
        grounded := grounded
        quatAngle := angle2 }
    steeringInput := steeringInput
    driveImpulse := driveImpulse
    dampingImpulse := (-env.linvelX * 1.5, 0, -env.linvelZ * 1.5) }

/-- The initial values of the refs: every scalar starts at 0, every flag at
`false` (`useRef(0)`, `useRef(false)`, identity quaternion). -/
def initialState : VehicleState :=
  { steeringAngle := 0
    driftSteeringAngle := 0
    driftingLeft := false
    driftingRight := false
    speed := 0
    grounded := false
    quatAngle := 0 }

/-- Iterate the fixed-step callback over a list of per-step inputs
(controls and environment answers), head first. -/
def runSteps : List (Controls × PhysicsEnv) → VehicleState → VehicleState
  | [], s => s
  | (c, e) :: rest, s => runSteps rest (physicsStep c e s).state

/-- One invocation of the physics callback including the body dereference.
`bodyRef` is declared with a non-null assertion and the callback contains no
guard: `bodyRef.current.translation()` is evaluated for the ground ray cast,
so when the reference is still uninitialized the invocation throws a
TypeError instead of returning normally (`Except.error ()`); no ref has been
written at that point (the ray cast precedes the `grounded.current`
assignment, which is the first ref write of the callback). -/
def physicsCallback (body? : Option PhysicsEnv) (c : Controls) (s : VehicleState) :
    Except Unit StepResult :=
  match body? with
  | none => Except.error ()
  | some env => Except.ok (physicsStep c env s)

/-- The state owned by the `useFrame` render callback: the vehicle group's
copied position, its rendered yaw, the smoothed drift visual angle, the
wheel spin accumulator (`vectors.wheelRotation`), and the camera position.
The rendered yaw is the Euler `y` decomposition of the pure-yaw steering
quaternion plus the drift tilt; we keep the angle itself (the decomposition
of a rotation about `(0,1,0)` by `θ` recovers `θ` up to `2π` wrapping, which
no claim depends on). -/
structure VisualState where
  groupPosition : ℚ × ℚ × ℚ
  groupYaw : ℚ
  driftSteeringVisualAngle : ℚ
  wheelRotation : ℚ
  cameraPosition : ℚ × ℚ × ℚ
  deriving DecidableEq, Repr

/-- One invocation of the `useFrame` callback of `Car`, translated from the
source.  It begins with `if (!bodyRef.current) return;`, so with an
uninitialized body reference it returns with every field untouched.
Otherwise it copies the body translation into the group position, lerps
`driftSteeringVisualAngle` toward `driftSteeringAngle` by `delta * 10`, sets
the rendered yaw to the steering quaternion's yaw plus
`driftSteeringVisualAngle * 0.4`, advances the wheel spin by
`-(speed / 10) * delta * 100`, and places the camera at the body position
plus `(1,1,1)`. -/
def frameStep (bodyTranslation? : Option (ℚ × ℚ × ℚ)) (delta : ℚ)
    (sim : VehicleState) (v : VisualState) : VisualState :=
  match bodyTranslation? with
  | none => v
  | some bodyPosition =>
    let dsva : ℚ := lerp v.driftSteeringVisualAngle sim.driftSteeringAngle (delta * 10)
    { groupPosition := bodyPosition
      groupYaw := sim.quatAngle + dsva * 0.4
      driftSteeringVisualAngle := dsva
      wheelRotation := v.wheelRotation - sim.speed / 10 * delta * 100
      cameraPosition := (bodyPosition.1 + 1, bodyPosition.2.1 + 1, bodyPosition.2.2 + 1) }

/-- Holding only the forward key. -/
def cForwardOnly : Controls := ⟨true, false, false, false, false⟩

/-- Holding only drift and left. -/
def cDriftLeft : Controls := ⟨false, false, true, false, true⟩

/-- A step environment where the ground ray hits and the body is at rest. -/
def envGround : PhysicsEnv := ⟨true, 0, 0⟩

/-- The run that holds forward (everything else released) for `n` steps over
ground, starting from the initial state. -/
def forwardRun (n : Nat) : VehicleState :=
  runSteps (List.replicate n (cForwardOnly, envGround)) initialState

/-- The run that holds drift and left (everything else released) for `n`
steps over ground, starting from the initial state with speed 2. -/
def driftRun (n : Nat) : VehicleState :=
  runSteps (List.replicate n (cDriftLeft, envGround)) { initialState with speed := 2 }

/-- Controls with drift released while both direction keys are held
(witness input for the drift-release transition). -/
def cReleased : Controls := ⟨false, false, true, true, false⟩

/-- A prior state with both drift flags set and speed 3 (witness input: the
drift-release transition clears the flags from any prior state). -/
def sBothDriftingFast : VehicleState :=
  { initialState with driftingLeft := true, driftingRight := true, speed := 3 }

/-- The speed written back by a step: the 0.03-lerp of the incoming speed
toward the target selected by `forward`/`back`. -/
lemma physicsStep_speed (c : Controls) (env : PhysicsEnv) (s : VehicleState) :
    (physicsStep c env s).state.speed =
      (1 - 0.03) * s.speed +
        0.03 * (if c.forward then maxForwardSpeed else if c.back then maxReverseSpeed else 0) := rfl

/-- Characterization of the `driftingLeft` flag after one step: it is set iff
drift is held, the vehicle is grounded with speed above 1, left is held
without right, and the prior state was not drifting right (the retained
opposite flag would trigger the both-flags clear). -/
lemma physicsStep_driftingLeft (c : Controls) (env : PhysicsEnv) (s : VehicleState) :
    (physicsStep c env s).state.driftingLeft =
      (c.drift && env.groundHit && decide ((1:ℚ) < s.speed) &&
        (c.left && !c.right && !s.driftingRight)) := by
  rcases c with ⟨cf, cb, cl, cr, cd⟩
  rcases s with ⟨sa, sd, sdl, sdr, sp, sg, sq⟩
  by_cases hs : (1:ℚ) < sp <;>
    cases cd <;> cases cl <;> cases cr <;> cases sdl <;> cases sdr <;>
      cases hg : env.groundHit <;> simp [physicsStep, hs, hg]

/-- Mirror characterization of the `driftingRight` flag after one step. -/
lemma physicsStep_driftingRight (c : Controls) (env : PhysicsEnv) (s : VehicleState) :
    (physicsStep c env s).state.driftingRight =
      (c.drift && env.groundHit && decide ((1:ℚ) < s.speed) &&
        (c.right && !c.left && !s.driftingLeft)) := by
  rcases c with ⟨cf, cb, cl, cr, cd⟩
  rcases s with ⟨sa, sd, sdl, sdr, sp, sg, sq⟩
  by_cases hs : (1:ℚ) < sp <;>
    cases cd <;> cases cl <;> cases cr <;> cases sdl <;> cases sdr <;>
      cases hg : env.groundHit <;> simp [physicsStep, hs, hg]

/-- The drift steering angle after one step: the 0.5-lerp of the incoming
value toward the target derived from the step's new drift flags. -/
lemma physicsStep_dsa (c : Controls) (env : PhysicsEnv) (s : VehicleState) :
    (physicsStep c env s).state.driftSteeringAngle =
      (1 - 0.5) * s.driftSteeringAngle +
        0.5 * (if (physicsStep c env s).state.driftingLeft then 1
               else if (physicsStep c env s).state.driftingRight then (-1) else 0) := rfl

/-- The steering angle after one step accumulates the steering-input and
drift contributions on top of the incoming angle. -/
lemma physicsStep_steering (c : Controls) (env : PhysicsEnv) (s : VehicleState) :
    (physicsStep c env s).state.steeringAngle =
      s.steeringAngle + (physicsStep c env s).steeringInput * 0.02 +
        (physicsStep c env s).state.driftSteeringAngle * 0.01 := rfl

/-- The steering input published by a step: `left` minus `right`, negated
when the raw impulse's `z` component `-speed * 5` is positive. -/
lemma physicsStep_steeringInput (c : Controls) (env : PhysicsEnv) (s : VehicleState) :
    (physicsStep c env s).steeringInput =
      (if (0:ℚ) < -s.speed * 5
       then -((if c.left then (1:ℚ) else 0) - (if c.right then 1 else 0))
       else ((if c.left then (1:ℚ) else 0) - (if c.right then 1 else 0))) := rfl

/-- The drive impulse of a step: the rotation, by the step's updated
steering angle, of `(0, 0, -speed * 5)` built from the speed that entered
the step; skipped when that vector is zero. -/
lemma physicsStep_driveImpulse (c : Controls) (env : PhysicsEnv) (s : VehicleState) :
    (physicsStep c env s).driveImpulse =
      (if (0:ℚ) < |(-s.speed * 5)| then
        some ⟨(physicsStep c env s).state.steeringAngle, (0, 0, -s.speed * 5)⟩
       else none) := rfl

/-- Running a concatenated input list runs the two pieces in order. -/
lemma runSteps_append (l₁ l₂ : List (Controls × PhysicsEnv)) (s : VehicleState) :
    runSteps (l₁ ++ l₂) s = runSteps l₂ (runSteps l₁ s) := by
  induction l₁ generalizing s with
  | nil => rfl
  | cons p rest ih => obtain ⟨c, e⟩ := p; simp [runSteps, ih]

/-- One step keeps the speed within `[maxReverseSpeed, maxForwardSpeed]`:
the new speed is a convex combination of the old speed and a target that
itself lies in the interval. -/
lemma speed_bounds_step (c : Controls) (env : PhysicsEnv) (s : VehicleState)
    (h1 : maxReverseSpeed ≤ s.speed) (h2 : s.speed ≤ maxForwardSpeed) :
    maxReverseSpeed ≤ (physicsStep c env s).state.speed ∧
      (physicsStep c env s).state.speed ≤ maxForwardSpeed := by
  rw [physicsStep_speed]
  unfold maxForwardSpeed maxReverseSpeed at *
  split_ifs <;> constructor <;> norm_num <;> linarith

/-- The speed interval `[maxReverseSpeed, maxForwardSpeed]` is invariant
under any run. -/
lemma speed_bounds_run (inputs : List (Controls × PhysicsEnv)) (s : VehicleState)
    (h1 : maxReverseSpeed ≤ s.speed) (h2 : s.speed ≤ maxForwardSpeed) :
    maxReverseSpeed ≤ (runSteps inputs s).speed ∧ (runSteps inputs s).speed ≤ maxForwardSpeed := by
  induction inputs generalizing s with
  | nil => exact ⟨h1, h2⟩
  | cons p rest ih =>
    obtain ⟨c, e⟩ := p
    exact ih _ (speed_bounds_step c e s h1 h2).1 (speed_bounds_step c e s h1 h2).2

/-- C1: for every input sequence, starting from the initial state (speed 0),
the speed after every fixed step stays within
`[maxReverseSpeed, maxForwardSpeed] = [-4, 5]`, because each step blends the
speed toward a target in `{5, -4, 0}` with factor 0.03. -/
theorem speed_always_in_bounds (inputs : List (Controls × PhysicsEnv)) :
    maxReverseSpeed ≤ (runSteps inputs initialState).speed ∧
      (runSteps inputs initialState).speed ≤ maxForwardSpeed :=
  speed_bounds_run inputs initialState (by norm_num [initialState, maxReverseSpeed])
    (by norm_num [initialState, maxForwardSpeed])

/-- A single step never ends with both drift flags set, whatever the prior
state: in the active drift branch a simultaneous pair is cleared, and every
other branch clears both flags. -/
lemma drift_exclusive_step (c : Controls) (env : PhysicsEnv) (s : VehicleState) :
    ((physicsStep c env s).state.driftingLeft && (physicsStep c env s).state.driftingRight)
      = false := by
  rw [physicsStep_driftingLeft, physicsStep_driftingRight]
  cases c.left <;> cases c.right <;> simp

/-- C2: for every input sequence, at the end of every fixed step the flags
`driftingLeft` and `driftingRight` are never both true. -/
theorem drifting_flags_never_both (inputs : List (Controls × PhysicsEnv)) :
    ((runSteps inputs initialState).driftingLeft &&
      (runSteps inputs initialState).driftingRight) = false := by
  have key : ∀ (l : List (Controls × PhysicsEnv)) (s : VehicleState),
      (s.driftingLeft && s.driftingRight) = false →
      ((runSteps l s).driftingLeft && (runSteps l s).driftingRight) = false := by
    intro l
    induction l with
    | nil => intro s h; exact h
    | cons p rest ih =>
      intro s _
      obtain ⟨c, e⟩ := p
      exact ih _ (drift_exclusive_step c e s)
  exact key inputs initialState rfl

/-- C3 counterexample: with forward held from the initial state (speed 0),
the step applies no drive impulse at all (the pre-update speed is 0, so the
`impulse.length() > 0` guard skips `applyImpulse`), whereas the claim's
impulse — the rotation by the step's steering angle of
`(0, 0, -speed') * 5` with `speed'` the post-blend speed `0.15` — is a
nonzero applied vector.  So the applied impulse is not computed from the
post-blend speed of the same step. -/
theorem drive_impulse_not_from_post_blend_speed :
    (physicsStep cForwardOnly envGround initialState).driveImpulse ≠
      some ⟨(physicsStep cForwardOnly envGround initialState).state.steeringAngle,
            (0, 0, -(physicsStep cForwardOnly envGround initialState).state.speed * 5)⟩ := by
  have h : (physicsStep cForwardOnly envGround initialState).driveImpulse = none := by
    norm_num [physicsStep, cForwardOnly, envGround, initialState, lerp, maxForwardSpeed]
  simp [h]

/-- C3 (amended): the raw impulse `(0, 0, -speed) * 5` is built from the
speed that enters the step, before the speed blend; the applied drive
impulse is that vector rotated by the step's updated steering angle (and is
skipped exactly when it is zero), and only afterwards does the step update
`speed += (speedTarget - speed) * 0.03`. -/
theorem drive_impulse_from_pre_blend_speed (c : Controls) (env : PhysicsEnv) (s : VehicleState) :
    (physicsStep c env s).driveImpulse =
      (if (0:ℚ) < |(-s.speed * 5)| then
        some ⟨(physicsStep c env s).state.steeringAngle, (0, 0, -s.speed * 5)⟩
       else none) ∧
    (physicsStep c env s).state.speed =
      s.speed + ((if c.forward then maxForwardSpeed
                  else if c.back then maxReverseSpeed else 0) - s.speed) * 0.03 := by
  refine ⟨physicsStep_driveImpulse c env s, ?_⟩
  rw [physicsStep_speed]; ring

/-- C4 counterexample: with an uninitialized rigid-body reference the fixed
step physics callback does not return normally at all — it dereferences the
body for the ground ray cast and faults — so it does not no-op for that
invocation. -/
theorem physics_callback_null_body_not_noop :
    ¬ ∃ r : StepResult, physicsCallback none cForwardOnly initialState = Except.ok r := by
  rintro ⟨r, h⟩
  simp [physicsCallback] at h

/-- C4 (amended): only the per-frame render callback guards the body
reference (`if (!bodyRef.current) return`) and no-ops without mutating any
state; the fixed-step physics callback has no such guard and faults on an
uninitialized reference (before any ref write). -/
theorem null_body_guard_only_in_frame (delta : ℚ) (sim : VehicleState) (v : VisualState)
    (c : Controls) (s : VehicleState) :
    frameStep none delta sim v = v ∧ physicsCallback none c s = Except.error () :=
  ⟨rfl, rfl⟩

/-- C5 counterexample: drift and left are held, the vehicle is grounded with
speed 2 > 1, and right is not held — yet because the prior state was
DriftingRight, the retained `driftingRight` flag combines with the newly set
`driftingLeft` and the both-flags clear fires: the step ends NotDrifting,
not DriftingLeft as the claim states. -/
theorem drift_left_blocked_by_prior_right :
    (physicsStep cDriftLeft envGround
        { initialState with driftingRight := true, speed := 2 }).state.driftingLeft = false ∧
    (physicsStep cDriftLeft envGround
        { initialState with driftingRight := true, speed := 2 }).state.driftingRight = false := by
  constructor <;> norm_num [physicsStep, cDriftLeft, envGround, initialState]

/-- C5 (amended): in a fixed step with drift held, grounded and speed > 1:
holding left without right yields DriftingLeft unless the prior state was
DriftingRight, in which case the result is NotDrifting (and symmetrically
for right); holding both or neither yields NotDrifting from every prior
state. -/
theorem drift_state_machine_update (c : Controls) (env : PhysicsEnv) (s : VehicleState)
    (hd : c.drift = true) (hg : env.groundHit = true) (hs : (1:ℚ) < s.speed) :
    (physicsStep c env s).state.driftingLeft = (c.left && !c.right && !s.driftingRight) ∧
    (physicsStep c env s).state.driftingRight = (c.right && !c.left && !s.driftingLeft) := by
  rw [physicsStep_driftingLeft, physicsStep_driftingRight, hd, hg, decide_eq_true hs]
  constructor <;> simp

/-- Witness for the amended C5 theorem at a concrete input: drift and left
held, grounded, speed 2, prior state not drifting. -/
theorem drift_state_machine_update_witness :
    (physicsStep cDriftLeft envGround { initialState with speed := 2 }).state.driftingLeft =
        (cDriftLeft.left && !cDriftLeft.right &&
          !({ initialState with speed := 2 } : VehicleState).driftingRight) ∧
    (physicsStep cDriftLeft envGround { initialState with speed := 2 }).state.driftingRight =
        (cDriftLeft.right && !cDriftLeft.left &&
          !({ initialState with speed := 2 } : VehicleState).driftingLeft) :=
  drift_state_machine_update cDriftLeft envGround _ rfl rfl (by norm_num [initialState])

/-- C8: a single fixed step in which the drift control is released ends
NotDrifting — both flags false — from every prior state. -/
theorem drift_release_clears_flags (c : Controls) (env : PhysicsEnv) (s : VehicleState)
    (h : c.drift = false) :
    (physicsStep c env s).state.driftingLeft = false ∧
      (physicsStep c env s).state.driftingRight = false := by
  rw [physicsStep_driftingLeft, physicsStep_driftingRight, h]
  simp

/-- Witness for C8 at a concrete input: drift released while both direction
keys are held, from a prior state with both flags set and speed 3. -/
theorem drift_release_clears_flags_witness :
    (physicsStep cReleased envGround sBothDriftingFast).state.driftingLeft = false ∧
      (physicsStep cReleased envGround sBothDriftingFast).state.driftingRight = false :=
  drift_release_clears_flags cReleased envGround sBothDriftingFast rfl

/-- C9: each fixed step publishes
`steeringInput = (left ? 1 : 0) - (right ? 1 : 0)`, negated exactly when the
raw impulse's `z` component `-speed * 5` is positive (reversing), and the
steering angle changes by exactly `steeringInput * 0.02` plus the step's
post-smoothing `driftSteeringAngle * 0.01`. -/
theorem steering_input_and_angle_update (c : Controls) (env : PhysicsEnv) (s : VehicleState) :
    (physicsStep c env s).steeringInput =
      (if (0:ℚ) < -s.speed * 5
       then -((if c.left then (1:ℚ) else 0) - (if c.right then 1 else 0))
       else ((if c.left then (1:ℚ) else 0) - (if c.right then 1 else 0))) ∧
    (physicsStep c env s).state.steeringAngle =
      s.steeringAngle + (physicsStep c env s).steeringInput * 0.02 +
        (physicsStep c env s).state.driftSteeringAngle * 0.01 :=
  ⟨physicsStep_steeringInput c env s, physicsStep_steering c env s⟩

/-- Unrolling the forward-only run by one step at the end. -/
lemma forwardRun_succ (n : Nat) :
    forwardRun (n + 1) = (physicsStep cForwardOnly envGround (forwardRun n)).state := by
  unfold forwardRun
  rw [List.replicate_succ', runSteps_append]
  rfl

/-- Closed form of the forward-only run's speed: `5 * (1 - 0.97 ^ n)`. -/
lemma forwardRun_speed (n : Nat) : (forwardRun n).speed = 5 - 5 * (97/100 : ℚ)^n := by
  induction n with
  | zero => norm_num [forwardRun, runSteps, initialState]
  | succ n ih =>
    rw [forwardRun_succ, physicsStep_speed, ih]
    norm_num [cForwardOnly, maxForwardSpeed, pow_succ]
    ring

/-- C6 counterexample: holding forward from rest for 100 fixed steps leaves
the speed at `5 * (1 - 0.97 ^ 100) ≈ 4.762`, strictly below 4.9 — the claim
`5 * (1 - 0.97 ^ 100) > 4.9` is false. -/
theorem forward_speed_at_100_below_4_9 : (forwardRun 100).speed < 4.9 := by
  rw [forwardRun_speed]
  norm_num

/-- C6 (amended): holding forward from rest, the speed after `n` steps is
exactly `5 - 5 * 0.97 ^ n`, approaching 5 asymptotically; it exceeds 4.7 by
step 100 and first exceeds 4.9 at step 129 (at step 128 it is still
below 4.9). -/
theorem forward_speed_closed_form_and_bounds :
    (∀ n : Nat, (forwardRun n).speed = 5 - 5 * (97/100 : ℚ)^n) ∧
    4.7 < (forwardRun 100).speed ∧
    (forwardRun 128).speed < 4.9 ∧ 4.9 < (forwardRun 129).speed := by
  refine ⟨forwardRun_speed, ?_, ?_, ?_⟩ <;> rw [forwardRun_speed] <;> norm_num

/-- Unrolling the drift-left run by one step at the end. -/
lemma driftRun_succ (n : Nat) :
    driftRun (n + 1) = (physicsStep cDriftLeft envGround (driftRun n)).state := by
  unfold driftRun
  rw [List.replicate_succ', runSteps_append]
  rfl

/-- Closed form of the drift-left run's speed: it decays as `2 * 0.97 ^ n`
(forward and back are released, so the blend target is 0). -/
lemma driftRun_speed (n : Nat) : (driftRun n).speed = 2 * (97/100 : ℚ)^n := by
  induction n with
  | zero => norm_num [driftRun, runSteps, initialState]
  | succ n ih =>
    rw [driftRun_succ, physicsStep_speed, ih]
    norm_num [cDriftLeft, pow_succ]
    ring

/-- C7: holding drift and left over ground from speed 2 and
`driftSteeringAngle = 0`: `driftingLeft` is true from the first step on
(still true at steps 7 and 10), `driftSteeringAngle` exceeds 0.99 at step 7
(the 0.5-per-step blend toward 1 gives `1 - 0.5 ^ 7 = 127/128`), while the
speed decays as `2 * 0.97 ^ n` and is still above the drift threshold 1
entering the tenth step. -/
theorem drift_left_run_behavior :
    (driftRun 1).driftingLeft = true ∧
    (driftRun 7).driftingLeft = true ∧
    (99/100 : ℚ) < (driftRun 7).driftSteeringAngle ∧
    (driftRun 10).driftingLeft = true ∧
    (∀ n : Nat, (driftRun n).speed = 2 * (97/100 : ℚ)^n) ∧
    1 < (driftRun 9).speed := by
  refine ⟨?_, ?_, ?_, ?_, driftRun_speed, ?_⟩
  · norm_num [driftRun, runSteps, List.replicate, physicsStep, lerp, initialState,
      cDriftLeft, envGround]
  · norm_num [driftRun, runSteps, List.replicate, physicsStep, lerp, initialState,
      cDriftLeft, envGround]
  · norm_num [driftRun, runSteps, List.replicate, physicsStep, lerp, initialState,
      cDriftLeft, envGround]
  · norm_num [driftRun, runSteps, List.replicate, physicsStep, lerp, initialState,
      cDriftLeft, envGround]
  · rw [driftRun_speed]
    norm_num

/-- One step keeps `driftSteeringAngle` within `[-1, 1]`: the new value is
the midpoint of the old value and a target in `{-1, 0, 1}`. -/
lemma abs_dsa_step (c : Controls) (env : PhysicsEnv) (s : VehicleState)
    (h : |s.driftSteeringAngle| ≤ 1) :
    |(physicsStep c env s).state.driftSteeringAngle| ≤ 1 := by
  rw [physicsStep_dsa]
  rw [abs_le] at *
  split_ifs <;> constructor <;> norm_num <;> linarith [h.1, h.2]

/-- Along any run from the initial state, `driftSteeringAngle` stays within
`[-1, 1]`. -/
lemma abs_dsa_run (inputs : List (Controls × PhysicsEnv)) :
    |(runSteps inputs initialState).driftSteeringAngle| ≤ 1 := by
  have key : ∀ (l : List (Controls × PhysicsEnv)) (s : VehicleState),
      |s.driftSteeringAngle| ≤ 1 → |(runSteps l s).driftSteeringAngle| ≤ 1 := by
    intro l
    induction l with
    | nil => intro s h; exact h
    | cons p rest ih =>
      intro s h
      obtain ⟨c, e⟩ := p
      exact ih _ (abs_dsa_step c e s h)
  refine key inputs initialState ?_
  norm_num [initialState]

/-- C10: for every input sequence and every next fixed step, the steering
angle changes by at most 0.03 radians: the steering input lies in
`{-1, 0, 1}` (contributing at most 0.02) and `driftSteeringAngle`, produced
only by 0.5-blends from 0 toward targets in `{-1, 0, 1}`, stays in `[-1, 1]`
(contributing at most 0.01). -/
theorem steering_angle_change_bounded (inputs : List (Controls × PhysicsEnv))
    (c : Controls) (env : PhysicsEnv) :
    |(physicsStep c env (runSteps inputs initialState)).state.steeringAngle -
        (runSteps inputs initialState).steeringAngle| ≤ 0.03 := by
  set s := runSteps inputs initialState with hsdef
  have hd : |(physicsStep c env s).state.driftSteeringAngle| ≤ 1 := by
    refine abs_dsa_step c env s ?_
    rw [hsdef]
    exact abs_dsa_run inputs
  have hsi : |(physicsStep c env s).steeringInput| ≤ 1 := by
    rw [physicsStep_steeringInput]
    split_ifs <;> norm_num
  have hdelta : (physicsStep c env s).state.steeringAngle - s.steeringAngle =
      (physicsStep c env s).steeringInput * 0.02 +
        (physicsStep c env s).state.driftSteeringAngle * 0.01 := by
    rw [physicsStep_steering]
    ring
  rw [hdelta, abs_le] at *
  constructor <;> norm_num <;> linarith [hd.1, hd.2, hsi.1, hsi.2]
